import Mathlib

/-
Verification of the MQL5 batch extraction engine (mql5_extract.py, lib/).

Shallow embedding conventions:
- Python strings are modelled as lists of characters (Str), so that every
  operation reduces in the kernel.
- Python floats in the retry configuration are modelled as rationals; every
  value the proofs touch (5, 2, 60 and products of these) is exactly
  representable in IEEE double, so the rational model agrees with the float
  computation.
- Fallible IO is modelled by enumerating the externally visible outcomes
  (file absent / unreadable / unparseable / parsed, extraction port result),
  and stateful code by explicit state passing over those outcomes.
- Logging, timestamps and sleeping are side effects with no data flow into
  the properties below; sleeps are recorded as trace events, log lines are
  elided.
-/

abbrev Str := List Char

/-- Does the first list start with the second one (Python str.startswith). -/
def strStartsWith : Str → Str → Bool
  | _, [] => true
  | [], _ :: _ => false
  | c :: cs, d :: ds => c == d && strStartsWith cs ds

/-- Does the first list end with the second one (Python str.endswith). -/
def strEndsWith (s suffix : Str) : Bool :=
  strStartsWith s.reverse suffix.reverse

/-- Does the first list contain the second as a contiguous substring
(Python `needle in hay`). -/
def strContainsSub : Str → Str → Bool
  | [], needle => needle.isEmpty
  | c :: cs, needle => strStartsWith (c :: cs) needle || strContainsSub cs needle

/-- Whitespace test used by the Python str.strip calls in the sources
(the inputs involved only carry ASCII whitespace). -/
def isSpaceChar (c : Char) : Bool :=
  c == ' ' || c == '\t' || c == '\n' || c == '\r'

/-- Python str.strip: drop leading and trailing whitespace. -/
def strTrim (s : Str) : Str :=
  ((s.dropWhile isSpaceChar).reverse.dropWhile isSpaceChar).reverse

/-- Python str.lower on the ASCII content the validator inspects. -/
def strToLower (s : Str) : Str := s.map Char.toLower

/-- Decimal rendering of a natural number (Python str interpolation),
with structural fuel so it reduces in the kernel. -/
def natToStrAux : Nat → Nat → Str
  | 0, _ => []
  | fuel + 1, n =>
    if n < 10 then [Char.ofNat (48 + n)]
    else natToStrAux fuel (n / 10) ++ [Char.ofNat (48 + n % 10)]

/-- Decimal rendering of a natural number. -/
def natToStr (n : Nat) : Str := natToStrAux (n + 1) n

/-- Value of a list of decimal digits (Python int over a regex group). -/
def digitsToNat (ds : Str) : Nat :=
  ds.foldl (fun acc c => 10 * acc + (c.toNat - 48)) 0

/-- re.search for the pattern /articles/(\d+): scan left to right and return
the first maximal digit run following the literal, as the matched group
(config_manager.py regexes in extractor.py and discovery.py). -/
def matchArticlesDigits : Str → Option Str
  | [] => none
  | c :: cs =>
    let rest := List.drop 10 (c :: cs)
    let digs := rest.takeWhile Char.isDigit
    if strStartsWith (c :: cs) ( "/articles/".toList) && !digs.isEmpty then
      some digs
    else
      matchArticlesDigits cs

/-- MQL5Extractor._extract_id_from_url: the matched digit group, or the
string unknown when the pattern does not occur. -/
def extractIdFromUrl (url : Str) : Str :=
  match matchArticlesDigits url with
  | some s => s
  | none => "unknown".toList

/-- RetryConfig from lib/config_manager.py with its defaults
(max_attempts 3, initial 5.0s, ceiling 60.0s, base 2.0). -/
structure RetryConfig where
  max_attempts : Nat := 3
  initial_backoff_seconds : ℚ := 5
  max_backoff_seconds : ℚ := 60
  exponential_base : ℚ := 2
deriving DecidableEq

/-- ValidationConfig from lib/config_manager.py with its defaults. -/
structure ValidationConfig where
  min_word_count : Nat := 500
  min_code_blocks : Nat := 1
  reject_login_popup : Bool := true
deriving DecidableEq

/-- BatchConfig from lib/config_manager.py with its defaults. -/
structure BatchConfig where
  rate_limit_seconds : ℚ := 2
  checkpoint_file : Str := ".extraction_checkpoint.json".toList
  resume_on_restart : Bool := true
  continue_on_error : Bool := true
deriving DecidableEq

/-- The content sub-dictionary of an extraction result, restricted to the
fields the engine reads. The code_blocks and images entries of the Python
dict are lists of dicts of which the engine only ever takes lengths, so they
are carried as the two counts the engine computes: the length of
code_blocks, and the number of images having a non-null local_path. -/
structure Content where
  word_count : Nat := 0
  code_blocks : Nat := 0
  images_local : Nat := 0
  user_id : Str := []
  main_content : Str := []
deriving DecidableEq

/-- An extraction result dictionary as produced by the extraction port
(_extract_with_playwright), restricted to the fields the engine reads. -/
structure Record where
  url : Str := []
  article_id : Str := []
  success : Bool := false
  content : Content := {}
deriving DecidableEq

/-- Reason string raised when the success flag is false
(extractor.py line 213). -/
def msgUnsuccessful : Str := "Extraction marked as unsuccessful".toList

/-- Reason string for the word-count rule (extractor.py lines 218-220). -/
def msgWordCount (wc minWc : Nat) : Str :=
  "Word count ".toList ++ natToStr wc ++ " below minimum ".toList ++ natToStr minWc

/-- Reason string for the code-block rule (extractor.py lines 225-227). -/
def msgCodeBlocks (cb minCb : Nat) : Str :=
  "Code blocks ".toList ++ natToStr cb ++ " below minimum ".toList ++ natToStr minCb

/-- Reason string for the login-popup heuristic (extractor.py line 233). -/
def msgLoginPopup : Str := "Content appears to be login popup".toList

/-- The login-popup heuristic of _validate_extraction: lowercased body
contains both login and password, and the word count is under the
hard-coded 200 (extractor.py lines 231-232). -/
def isLoginPopupContent (content : Content) : Bool :=
  let mc := strToLower content.main_content
  strContainsSub mc ( "login".toList) && strContainsSub mc ( "password".toList)
    && content.word_count < 200

/-- MQL5Extractor._validate_extraction (extractor.py lines 201-233): the
rules in source order, raising (here: returning) the reason of the first failing rule. -/
def validateExtraction (v : ValidationConfig) (r : Record) : Except Str Unit :=
  if !r.success then
    .error msgUnsuccessful
  else if r.content.word_count < v.min_word_count then
    .error (msgWordCount r.content.word_count v.min_word_count)
  else if r.content.code_blocks < v.min_code_blocks then
    .error (msgCodeBlocks r.content.code_blocks v.min_code_blocks)
  else if v.reject_login_popup && isLoginPopupContent r.content then
    .error msgLoginPopup
  else
    .ok ()

/-- The backoff expression computed inline in extract_article
(extractor.py lines 103-108). -/
def backoff (c : RetryConfig) (attempt : Nat) : ℚ :=
  min (c.initial_backoff_seconds * c.exponential_base ^ (attempt - 1))
    c.max_backoff_seconds

/-- Outcome of one call of the extraction port _extract_with_playwright:
a result record returned normally, or an exception message. -/
inductive PortResult where
  | ok (r : Record)
  | err (e : Str)
deriving DecidableEq

/-- Externally visible events of the retry loop: port invocations (keyed by
the attempt number) and backoff sleeps. -/
inductive RetryEvent where
  | invoke (attempt : Nat)
  | sleep (seconds : ℚ)
deriving DecidableEq

/-- Termination of extract_article: a validated record returned, a
ValidationError raised, an ExtractionError raised, or the Python implicit
None return when the loop body never runs (max_attempts = 0). -/
inductive ExtractResult where
  | record (r : Record)
  | valErr (reason : Str)
  | extErr (msg : Str)
  | noneReturn
deriving DecidableEq

/-- The message of the terminal ExtractionError
(extractor.py line 114). -/
def msgExtFailed (aid lastErr : Str) : Str :=
  "Failed to extract article ".toList ++ aid ++ ": ".toList ++ lastErr

/-- The loop body of MQL5Extractor.extract_article (extractor.py lines
81-114). The Python for-loop over range(1, max_attempts + 1) is modelled
with the current attempt number plus structural fuel counting the remaining
iterations; the port is a function of the attempt number. On a port record,
validation runs; a validation failure is re-raised without retry. On any
other port exception, if attempt < max_attempts the loop sleeps the inline
backoff amount and continues, else it raises ExtractionError wrapping the
article id and the last error. -/
def extractIter (c : RetryConfig) (v : ValidationConfig) (aid : Str)
    (port : Nat → PortResult) : Nat → Nat → List RetryEvent × ExtractResult
  | _, 0 => ([], .noneReturn)
  | attempt, fuel + 1 =>
    match port attempt with
    | .ok result =>
      match validateExtraction v result with
      | .ok _ => ([.invoke attempt], .record result)
      | .error reason => ([.invoke attempt], .valErr reason)
    | .err e =>
      if attempt < c.max_attempts then
        (.invoke attempt :: .sleep (backoff c attempt)
            :: (extractIter c v aid port (attempt + 1) fuel).1,
          (extractIter c v aid port (attempt + 1) fuel).2)
      else
        ([.invoke attempt], .extErr (msgExtFailed aid e))

/-- MQL5Extractor.extract_article: derive the article id from the URL, then
run the attempt loop from attempt 1 with max_attempts iterations. -/
def extract_article (c : RetryConfig) (v : ValidationConfig) (url : Str)
    (port : Nat → PortResult) : List RetryEvent × ExtractResult :=
  extractIter c v (extractIdFromUrl url) port 1 c.max_attempts

/-- Number of port invocations recorded in a retry trace. -/
def countInvokes (evs : List RetryEvent) : Nat :=
  (evs.filter fun e => match e with | .invoke _ => true | _ => false).length

/-- Number of backoff sleeps recorded in a retry trace. -/
def countSleeps (evs : List RetryEvent) : Nat :=
  (evs.filter fun e => match e with | .sleep _ => true | _ => false).length

/-- The checkpoint JSON object as far as the engine reads it: process_urls
only ever looks up the processed_urls key with an empty-list default, so the
loaded dictionary is carried as that optional field (none models a dict
without the key, in particular the empty dict). -/
structure CheckpointDoc where
  processed_urls : Option (List Str) := none
deriving DecidableEq

/-- checkpoint.get with key processed_urls and default empty list
(batch_processor.py line 95). -/
def docProcessedUrls (d : CheckpointDoc) : List Str :=
  d.processed_urls.getD []

/-- Externally visible state of the durable checkpoint file when
_load_checkpoint runs: the path does not exist, opening or reading it
raises, json.load raises on its content, or a checkpoint object parses. -/
inductive CheckpointFileState where
  | absent
  | unreadable
  | unparseable
  | parsed (doc : CheckpointDoc)
deriving DecidableEq

/-- BatchProcessor._load_checkpoint (batch_processor.py lines 245-269): an
absent file returns the empty dict; the open and json.load calls sit in a
try block whose except clause catches every exception and returns the empty
dict; a parsed checkpoint is returned as is. Total by construction, exactly
as the source never lets an exception escape. -/
def loadCheckpoint : CheckpointFileState → CheckpointDoc
  | .absent => {}
  | .unreadable => {}
  | .unparseable => {}
  | .parsed doc => doc

/-- The processed set at the start of process_urls (batch_processor.py lines
94-95): the url list of the loaded checkpoint when resuming, the list of the
empty dict (hence the empty list) otherwise. -/
def initialProcessed (resume : Bool) (st : CheckpointFileState) : List Str :=
  if resume then docProcessedUrls (loadCheckpoint st) else []

/-- Primitive filesystem operations performed by checkpoint saving, for
stating the atomicity property. -/
inductive FsOp where
  | openTrunc (path : Str)
  | writeData (path : Str) (data : Str)
  | rename (src dst : Str)
deriving DecidableEq

/-- BatchProcessor._save_checkpoint (batch_processor.py lines 240-241) as
the sequence of filesystem operations it performs: open(checkpoint_file, w)
truncates the file in place, then json.dump writes the serialized
checkpoint into it. data stands for the serialized JSON text. -/
def saveCheckpointOps (checkpoint_file : Str) (data : Str) : List FsOp :=
  [.openTrunc checkpoint_file, .writeData checkpoint_file data]

/-- Modelled from the spec: implementations should write to a temp location
and rename/replace. Holds of an operation sequence exactly when every write
lands on some path other than the final one and the sequence ends with a
rename onto the final path, so that no intermediate state of the final path
is ever visible. -/
def atomicTempRename (finalPath : Str) (ops : List FsOp) : Bool :=
  match ops.getLast? with
  | some (.rename src dst) =>
    src != finalPath && dst == finalPath &&
      ops.dropLast.all fun op =>
        match op with
        | .openTrunc p => p != finalPath
        | .writeData p _ => p != finalPath
        | .rename _ d => d != finalPath
  | _ => false

/-- The file names _save_results (extractor.py lines 526-597) creates
inside the article folder: metadata.json always, images_manifest.json when
the record carries images, and the markdown article_<id>.md when the record
is successful and has main content. -/
def savedFileNames (article_id : Str) (hasImages success hasMainContent : Bool) : List Str :=
  [ "metadata.json".toList]
    ++ (if hasImages then [ "images_manifest.json".toList] else [])
    ++ (if success && hasMainContent then
          [ "article_".toList ++ article_id ++ ".md".toList]
        else [])

/-- BatchProcessor._is_already_extracted (batch_processor.py lines
173-200) over a directory tree listing: the output directory holds user
folders, each holding article folders with their file names. The probe
scans every user folder for a folder named article_<id> containing a file
named article.md. -/
def isAlreadyExtracted (tree : List (Str × List (Str × List Str))) (article_id : Str) : Bool :=
  tree.any fun userFolder =>
    userFolder.2.any fun articleFolder =>
      articleFolder.1 == "article_".toList ++ article_id
        && articleFolder.2.contains ( "article.md".toList)

/-- URLDiscovery._is_valid_article_url (discovery.py lines 198-226): https
scheme, the substring mql5.com anywhere, a /articles/<digits> match, and a
fragment or query only tolerated when a ?utm_ or ?ref= tracking marker
occurs somewhere in the URL. -/
def isValidArticleUrl (url : Str) : Bool :=
  if !strStartsWith url ( "https://".toList) then false
  else if !strContainsSub url ( "mql5.com".toList) then false
  else if (matchArticlesDigits url).isNone then false
  else if url.contains '#' || url.contains '?' then
    strContainsSub url ( "?utm_".toList) || strContainsSub url ( "?ref=".toList)
  else true

/-- The sort key of URLDiscovery._process_urls (discovery.py line 190):
the article id as an integer, or 0 when the pattern is missing. -/
def urlSortKey (url : Str) : Nat :=
  match matchArticlesDigits url with
  | some ds => digitsToNat ds
  | none => 0

/-- URLDiscovery._process_urls (discovery.py lines 167-196) after the
duplicate-removal step: keep the valid URLs and sort them by article id,
newest first. Python list.sort with key and reverse=True is modelled by a
sort under the relation (key of the right ≤ key of the left); the
properties proved below (membership, freedom from duplicates, sortedness)
are shared by every sort producing that order. -/
def discoveryProcessUrlsOn (unique_urls : List Str) : List Str :=
  List.insertionSort (fun a b => urlSortKey b ≤ urlSortKey a)
    (unique_urls.filter isValidArticleUrl)

/-- URLDiscovery._process_urls including the duplicate-removal step
(list(set(urls)) in the source, a duplicate-free list with the same
members; the set iteration order is arbitrary and the sort erases it). -/
def discoveryProcessUrls (urls : List Str) : List Str :=
  discoveryProcessUrlsOn urls.dedup

/-- Host component of an https URL: what stands between the scheme and the
next slash. Used only by the claim-side validation predicate below. -/
def urlHost (url : Str) : Str :=
  (url.drop 8).takeWhile (fun c => c ≠ '/')

/-- Modelled from the claim wording for the discovery validation gloss:
https scheme, mql5.com as the HOST, an /articles/<digits> id, no fragment,
and a query string only when it is a tracking one. Stated for comparison
with isValidArticleUrl, which the source actually implements. -/
def claimValidArticleUrl (url : Str) : Bool :=
  strStartsWith url ( "https://".toList)
    && (urlHost url == "mql5.com".toList
        || urlHost url == "www.mql5.com".toList
        || strEndsWith (urlHost url) ( ".mql5.com".toList))
    && (matchArticlesDigits url).isSome
    && !url.contains '#'
    && (!url.contains '?'
        || strContainsSub url ( "?utm_".toList)
        || strContainsSub url ( "?ref=".toList))

/-- The per-run statistics dictionary of BatchProcessor.__init__
(batch_processor.py lines 49-64), restricted to the fields with data flow:
timestamps and duration are wall-clock side channels and are elided; the
content_stats sub-dictionary is inlined. users models the Python set as a
duplicate-free list. -/
structure BatchStats where
  total : Nat := 0
  successful : Nat := 0
  failed : Nat := 0
  skipped : Nat := 0
  failed_articles : List (Str × Str × Str) := []
  total_words : Nat := 0
  total_images : Nat := 0
  total_code_blocks : Nat := 0
  users : List Str := []
deriving DecidableEq

/-- Python set.add on the users set, list-modelled: insert if absent. -/
def usersAdd (users : List Str) (uid : Str) : List Str :=
  if users.contains uid then users else users ++ [uid]

/-- BatchProcessor._update_stats (batch_processor.py lines 202-221): add
the word count, code-block count and locally saved image count of the record to
the running totals, and its user id to the user set unless it is falsy or
the sentinel unknown. -/
def updateContentStats (st : BatchStats) (r : Record) : BatchStats :=
  { st with
    total_words := st.total_words + r.content.word_count,
    total_code_blocks := st.total_code_blocks + r.content.code_blocks,
    total_images := st.total_images + r.content.images_local,
    users :=
      if !r.content.user_id.isEmpty && r.content.user_id ≠ "unknown".toList then
        usersAdd st.users r.content.user_id
      else st.users }

/-- Behavior of one work item during a run, as seen by the orchestrator:
it was found on disk by _is_already_extracted, or extract_article returned
a validated record, or extract_article raised (ExtractionError or
ValidationError) with a message. -/
inductive UrlOutcome where
  | onDisk
  | extracted (r : Record)
  | extractionFailed (e : Str)

/-- Mutable state of one process_urls run: the statistics dictionary plus
the processed_urls set (list-modelled). Checkpoint writes serialize exactly
this processed list, so they are not tracked separately. -/
structure BatchState where
  stats : BatchStats := {}
  processed : List Str := []

/-- Python set.add on the processed set, list-modelled. -/
def processedAdd (l : List Str) (u : Str) : List Str :=
  if l.contains u then l else l ++ [u]

/-- One iteration of the process_urls loop (batch_processor.py lines
97-152) over one url. Returns the new state and whether the loop breaks
(stop on error with continue_on_error disabled). In source order: a url in
the processed set is counted skipped; else a url found on disk is counted
skipped and added to the set; else an extracted record updates content
stats, the set and the successful counter; else the failure is counted,
recorded in failed_articles, and breaks the loop when continue_on_error is
off. Checkpoint writes and the rate-limit sleep carry no data reflected in
the state. -/
def processOneUrl (cfg : BatchConfig) (env : Str → UrlOutcome) (s : BatchState)
    (url : Str) : BatchState × Bool :=
  if s.processed.contains url then
    ({ s with stats := { s.stats with skipped := s.stats.skipped + 1 } }, false)
  else
    match env url with
    | .onDisk =>
      ({ s with
          stats := { s.stats with skipped := s.stats.skipped + 1 },
          processed := processedAdd s.processed url }, false)
    | .extracted r =>
      let st := updateContentStats s.stats r
      ({ s with
          stats := { st with successful := st.successful + 1 },
          processed := processedAdd s.processed url }, false)
    | .extractionFailed e =>
      ({ s with
          stats := { s.stats with
            failed := s.stats.failed + 1,
            failed_articles :=
              s.stats.failed_articles ++ [(extractIdFromUrl url, url, e)] } },
        !cfg.continue_on_error)

/-- The for-loop of process_urls: iterate in order, stopping early when an
iteration breaks. Returns the final state and whether the loop broke. -/
def processUrlsAux (cfg : BatchConfig) (env : Str → UrlOutcome) :
    BatchState → List Str → BatchState × Bool
  | s, [] => (s, false)
  | s, url :: rest =>
    match processOneUrl cfg env s url with
    | (s1, true) => (s1, true)
    | (s1, false) => processUrlsAux cfg env s1 rest

/-- Every state the run passes through, in order: the state before each
iteration and the final state (after the breaking iteration if any). -/
def processStates (cfg : BatchConfig) (env : Str → UrlOutcome) :
    BatchState → List Str → List BatchState
  | s, [] => [s]
  | s, url :: rest =>
    match processOneUrl cfg env s url with
    | (s1, true) => [s, s1]
    | (s1, false) => s :: processStates cfg env s1 rest

/-- The state at the top of process_urls (batch_processor.py lines 85-95):
fresh per-run counters (the processor is constructed anew by each CLI
handler), total set to the length of the input list, and the processed set
as loaded per the resume flag. -/
def initialBatchState (processed0 : List Str) (total : Nat) : BatchState :=
  { stats := { total := total }, processed := processed0 }

/-- BatchProcessor.process_urls (batch_processor.py lines 71-171): the
initial state, then the loop. -/
def processUrlsRun (cfg : BatchConfig) (env : Str → UrlOutcome)
    (processed0 : List Str) (urls : List Str) : BatchState × Bool :=
  processUrlsAux cfg env (initialBatchState processed0 urls.length) urls

/-- Sum of the three per-item counters. -/
def counterSum (st : BatchStats) : Nat :=
  st.successful + st.failed + st.skipped

/-- One line of the urls file as read by URLDiscovery.load_urls
(discovery.py lines 263-272): strip, drop blank lines and #-comments, and
cut an optional numbering prefix at the first arrow. -/
def parseUrlLine (line : Str) : Option Str :=
  let l := strTrim line
  if l.isEmpty then none
  else if strStartsWith l ( "#".toList) then none
  else if l.contains '→' then some ((l.dropWhile (fun c => c ≠ '→')).drop 1)
  else some l

/-- URLDiscovery.load_urls over the lines of the file. -/
def loadUrlsLines (lines : List Str) : List Str :=
  lines.filterMap parseUrlLine

/-- The parameter names of BatchProcessor.__init__ (batch_processor.py
line 37), which has no **kwargs. -/
def batchProcessorInitParams : List Str :=
  [ "config".toList, "extractor".toList]

/-- Python call binding for keyword arguments: after the leading positional
arguments are bound, every keyword must name one of the remaining
parameters, else the call raises TypeError before the body runs. -/
def bindCallKeywords (params : List Str) (positional : Nat) (keywords : List Str) :
    Except Str Unit :=
  let remaining := params.drop positional
  match keywords.find? (fun k => !remaining.contains k) with
  | some k => .error ( "got an unexpected keyword argument ".toList ++ k)
  | none => .ok ()

/-- Result of one handle_batch invocation (mql5_extract.py lines 242-286):
exit code 1 (missing urls file, or an exception propagated to the
catch-all in main), the dry-run report, or a completed engine run with its final
state and early-stop flag. -/
inductive HandleBatchResult where
  | fatalExit
  | dryRunReport (urls : List Str)
  | ran (final : BatchState) (stoppedEarly : Bool)

/-- handle_batch (mql5_extract.py lines 242-286): fail fast when the urls
file is missing; load and optionally cap the urls (args.max_articles is
tested for Python truthiness, so a 0 cap is ignored); report and return on
dry-run; otherwise construct BatchProcessor - the source passes the
keyword use_checkpoint, which __init__ does not accept - and on success of
that binding run the engine with the resume flag. -/
def handleBatch (fileLines : Option (List Str)) (dryRun noCheckpoint resumeFlag : Bool)
    (maxArticles : Option Nat) (cfg : BatchConfig) (env : Str → UrlOutcome)
    (checkpointState : CheckpointFileState) : HandleBatchResult :=
  match fileLines with
  | none => .fatalExit
  | some lines =>
    let urls0 := loadUrlsLines lines
    let urls := match maxArticles with
      | some n => if n = 0 then urls0 else urls0.take n
      | none => urls0
    if dryRun then .dryRunReport urls
    else
      match bindCallKeywords batchProcessorInitParams 2 [ "use_checkpoint".toList] with
      | .error _ => .fatalExit
      | .ok _ =>
        let resume := if noCheckpoint then false else resumeFlag
        let run := processUrlsRun cfg env (initialProcessed resume checkpointState) urls
        .ran run.1 run.2

/-- A content dictionary passing every default validation rule. -/
def benignContent : Content :=
  { word_count := 500
    code_blocks := 1
    images_local := 0
    user_id := "author1".toList
    main_content := "A full length article about MQL5 expert advisors".toList }

/-- A record at the accepting side of the word-count boundary. -/
def rec500 : Record :=
  { url := "https://www.mql5.com/en/articles/19625".toList
    article_id := "19625".toList
    success := true
    content := benignContent }

/-- The same record with one word fewer, at the rejecting side. -/
def rec499 : Record :=
  { rec500 with content := { benignContent with word_count := 499 } }

/-- C1: handle_batch with an existing urls file and dry-run off never
reaches the engine: the BatchProcessor construction passes the keyword
use_checkpoint, which BatchProcessor.__init__ does not accept, so the call
raises TypeError and the catch-all in main exits with code 1. The second
conjunct isolates the failing Python call binding. -/
theorem c1_handle_batch_type_error :
    (∀ (lines : List Str) (noCheckpoint resumeFlag : Bool) (maxArticles : Option Nat)
        (cfg : BatchConfig) (env : Str → UrlOutcome) (st : CheckpointFileState),
        handleBatch (some lines) false noCheckpoint resumeFlag maxArticles cfg env st
          = .fatalExit)
    ∧ bindCallKeywords batchProcessorInitParams 2 [ "use_checkpoint".toList]
        = .error ( "got an unexpected keyword argument use_checkpoint".toList) := by
  constructor
  · intro lines noCheckpoint resumeFlag maxArticles cfg env st
    rfl
  · rfl

/-- C2: the on-disk idempotence probe never recognizes output saved by
_save_results: the probe looks for article.md while the saver writes
article_<id>.md, so for every article folder produced by a prior
successful extraction (success flag set, main content present) the probe
reports false and the item is re-extracted. -/
theorem c2_probe_misses_saved_markdown :
    ∀ (user article_id : Str) (hasImages : Bool),
      isAlreadyExtracted
        [(user,
          [( "article_".toList ++ article_id,
             savedFileNames article_id hasImages true true)])]
        article_id = false := by
  intro user article_id hasImages
  have hne : ¬ ( "article.md".toList = "article_".toList ++ article_id ++ ".md".toList) := by
    intro h
    have hlen := congrArg List.length h
    simp [List.length_append] at hlen
  cases hasImages <;>
    simp [isAlreadyExtracted, savedFileNames, List.contains, List.elem, hne]

/-- C5: a validation failure is never retried: whenever the port result of an attempt fails the validation gate (in particular a record whose success
flag is false, which yields the marked-as-unsuccessful reason), the loop
returns the rejection at once with a single invocation and no sleep. -/
theorem c5_validation_not_retried :
    ∀ (c : RetryConfig) (v : ValidationConfig) (aid : Str) (port : Nat → PortResult)
      (attempt fuel : Nat) (r : Record) (reason : Str),
      port attempt = .ok r →
      validateExtraction v r = .error reason →
      extractIter c v aid port attempt (fuel + 1)
        = ([.invoke attempt], .valErr reason) := by
  intro c v aid port attempt fuel r reason hport hval
  simp [extractIter, hport, hval]

/-- C5 witness: a record with the success flag false is rejected on
attempt 1 with no retry and no sleep. -/
theorem c5_validation_not_retried_witness :
    extractIter {} {} [] (fun _ => .ok {}) 1 (2 + 1)
      = ([.invoke 1], .valErr msgUnsuccessful) :=
  c5_validation_not_retried {} {} [] (fun _ => .ok {}) 1 2 {} msgUnsuccessful rfl rfl

/-- C7 counterexample: the checkpoint save of the source is not a
temp-and-rename write: its operation sequence fails the atomic pattern and
its very first operation truncates the checkpoint file in place, so a
concurrent reader can observe a half-written file. -/
theorem c7_save_not_atomic :
    atomicTempRename ( ".extraction_checkpoint.json".toList)
        (saveCheckpointOps ( ".extraction_checkpoint.json".toList)
          ( "serialized checkpoint".toList)) = false
    ∧ (saveCheckpointOps ( ".extraction_checkpoint.json".toList)
          ( "serialized checkpoint".toList)).head?
        = some (.openTrunc ( ".extraction_checkpoint.json".toList)) := by
  constructor
  · rfl
  · rfl

/-- C7 amended: every checkpoint save is a direct truncating write of the
serialized JSON onto the checkpoint file itself; for no path and no data
does the operation sequence match the temp-location-plus-rename pattern. -/
theorem c7_save_direct_write :
    ∀ (checkpoint_file data : Str),
      saveCheckpointOps checkpoint_file data
        = [.openTrunc checkpoint_file, .writeData checkpoint_file data]
      ∧ atomicTempRename checkpoint_file (saveCheckpointOps checkpoint_file data)
        = false := by
  intro checkpoint_file data
  exact ⟨rfl, rfl⟩

/-- C8: for an absent, unreadable or unparseable checkpoint file, load
returns the empty checkpoint (it is total, so no error propagates), the
processed_urls lookup yields the empty list, and a resuming run over such
a state is the very run that starts with no prior progress. -/
theorem c8_load_degrades_to_empty :
    ∀ st : CheckpointFileState,
      st = .absent ∨ st = .unreadable ∨ st = .unparseable →
      loadCheckpoint st = ({} : CheckpointDoc)
      ∧ docProcessedUrls (loadCheckpoint st) = []
      ∧ (∀ (cfg : BatchConfig) (env : Str → UrlOutcome) (urls : List Str),
          processUrlsRun cfg env (initialProcessed true st) urls
            = processUrlsRun cfg env (initialProcessed false st) urls) := by
  intro st h
  rcases h with rfl | rfl | rfl <;> exact ⟨rfl, rfl, fun _ _ _ => rfl⟩

/-- C8 witness: the unparseable state concretely degrades to the empty
checkpoint. -/
theorem c8_load_degrades_to_empty_witness :
    loadCheckpoint .unparseable = ({} : CheckpointDoc)
    ∧ docProcessedUrls (loadCheckpoint .unparseable) = []
    ∧ (∀ (cfg : BatchConfig) (env : Str → UrlOutcome) (urls : List Str),
        processUrlsRun cfg env (initialProcessed true .unparseable) urls
          = processUrlsRun cfg env (initialProcessed false .unparseable) urls) :=
  c8_load_degrades_to_empty .unparseable (Or.inr (Or.inr rfl))

/-- C3: whenever an attempt n fails with attempts remaining, the delay
slept before attempt n+1 is exactly min(initial * base^(n-1), ceiling);
with the default configuration the values are 5, 10, 20, and 60 for every
n whose uncapped value reaches the ceiling. -/
theorem c3_backoff_formula :
    (∀ (c : RetryConfig) (v : ValidationConfig) (aid : Str) (port : Nat → PortResult)
        (attempt fuel : Nat) (e : Str),
        port attempt = .err e → attempt < c.max_attempts →
        (extractIter c v aid port attempt (fuel + 1)).1.take 2
          = [.invoke attempt,
              .sleep (min (c.initial_backoff_seconds * c.exponential_base ^ (attempt - 1))
                c.max_backoff_seconds)])
    ∧ backoff {} 1 = 5 ∧ backoff {} 2 = 10 ∧ backoff {} 3 = 20
    ∧ (∀ n : Nat, 60 ≤ (5 : ℚ) * 2 ^ (n - 1) → backoff {} n = 60) := by
  refine ⟨?_, by norm_num [backoff], by norm_num [backoff], by norm_num [backoff], ?_⟩
  · intro c v aid port attempt fuel e hport hlt
    simp [extractIter, hport, hlt, backoff]
  · intro n h
    show min ((5 : ℚ) * 2 ^ (n - 1)) 60 = 60
    exact min_eq_right h

/-- C3 witness: attempt 1 failing under the default configuration sleeps
the formula value before attempt 2, and the default backoff is capped at
60 from the fifth attempt on. -/
theorem c3_backoff_formula_witness :
    (extractIter {} {} [] (fun _ => .err []) 1 (0 + 1)).1.take 2
      = [.invoke 1, .sleep (min ((5 : ℚ) * 2 ^ (1 - 1)) 60)]
    ∧ backoff {} 10 = 60 :=
  ⟨c3_backoff_formula.1 {} {} [] (fun _ => .err []) 1 0 [] rfl (by decide),
   c3_backoff_formula.2.2.2.2 10 (by norm_num)⟩

/-- An always-failing port drives the attempt loop to exhaustion: starting
at any attempt with matching remaining fuel, the loop invokes the port
once per remaining attempt, ends in the ExtractionError wrapping the last
error, and produces a trace of 2*fuel - 1 events. -/
theorem extractIter_always_fails (c : RetryConfig) (v : ValidationConfig) (aid : Str)
    (port : Nat → PortResult) (errs : Nat → Str) (hport : ∀ n, port n = .err (errs n)) :
    ∀ fuel attempt, attempt + fuel = c.max_attempts + 1 → 1 ≤ fuel →
      countInvokes (extractIter c v aid port attempt fuel).1 = fuel
      ∧ (extractIter c v aid port attempt fuel).2
          = .extErr (msgExtFailed aid (errs c.max_attempts))
      ∧ (extractIter c v aid port attempt fuel).1.length = 2 * fuel - 1 := by
  intro fuel
  induction fuel with
  | zero => omega
  | succ f ih =>
    intro attempt hsum _
    match f, ih with
    | 0, _ =>
      have ha : attempt = c.max_attempts := by omega
      have hlt : ¬ attempt < c.max_attempts := by omega
      subst ha
      simp [extractIter, hport, hlt, countInvokes]
    | f' + 1, ih =>
      have hlt : attempt < c.max_attempts := by omega
      have hrec := ih (attempt + 1) (by omega) (by omega)
      simp only [extractIter, hport, hlt, if_true, countInvokes, List.filter,
        List.length] at hrec ⊢
      refine ⟨by omega, hrec.2.1, by omega⟩

/-- C4 counterexample: with max_attempts 4 and an always-failing port, the
terminal ExtractionError message wraps the article id and the last error
but does not mention the attempt count anywhere (the digit 4 does not
occur in it); the attempt count reaches only the log, not the failure. -/
theorem c4_failure_lacks_attempt_count :
    countInvokes (extract_article { max_attempts := 4 } {}
        ( "https://www.mql5.com/en/articles/7".toList)
        (fun _ => .err ( "boom".toList))).1 = 4
    ∧ (extract_article { max_attempts := 4 } {}
        ( "https://www.mql5.com/en/articles/7".toList)
        (fun _ => .err ( "boom".toList))).2
      = .extErr ( "Failed to extract article 7: boom".toList)
    ∧ strContainsSub ( "Failed to extract article 7: boom".toList) (natToStr 4) = false := by
  refine ⟨by decide, by decide, by decide⟩

/-- C4 amended: an extraction port failing with a non-validation error on
every call is invoked exactly max_attempts times, after which the call
terminates (the trace is finite, of length 2 * max_attempts - 1) with the
typed ExtractionError wrapping the article id and the last error. -/
theorem c4_retry_termination :
    ∀ (c : RetryConfig) (v : ValidationConfig) (url : Str) (port : Nat → PortResult)
      (errs : Nat → Str),
      (∀ n, port n = .err (errs n)) → 1 ≤ c.max_attempts →
      countInvokes (extract_article c v url port).1 = c.max_attempts
      ∧ (extract_article c v url port).2
          = .extErr (msgExtFailed (extractIdFromUrl url) (errs c.max_attempts))
      ∧ (extract_article c v url port).1.length = 2 * c.max_attempts - 1 := by
  intro c v url port errs hport hmax
  exact extractIter_always_fails c v (extractIdFromUrl url) port errs hport
    c.max_attempts 1 (by omega) hmax

/-- C4 witness: with the default three attempts and an always-failing
port, the loop makes exactly three invocations and fails terminally. -/
theorem c4_retry_termination_witness :
    countInvokes (extract_article {} {} ( "https://www.mql5.com/en/articles/7".toList)
        (fun _ => .err ( "x".toList))).1 = ({} : RetryConfig).max_attempts
    ∧ (extract_article {} {} ( "https://www.mql5.com/en/articles/7".toList)
        (fun _ => .err ( "x".toList))).2
      = .extErr (msgExtFailed (extractIdFromUrl ( "https://www.mql5.com/en/articles/7".toList))
          ( "x".toList))
    ∧ (extract_article {} {} ( "https://www.mql5.com/en/articles/7".toList)
        (fun _ => .err ( "x".toList))).1.length = 2 * ({} : RetryConfig).max_attempts - 1 :=
  c4_retry_termination {} {} ( "https://www.mql5.com/en/articles/7".toList)
    (fun _ => .err ( "x".toList)) (fun _ => "x".toList) (fun _ => rfl) (by decide)

/-- C6 counterexample: under a configuration whose thresholds let the
login-popup rule fire, its rejection reason names the rule but carries no
observed or required value at all: it contains no digit, in particular
neither the observed word count 100 nor the bound 200 of the rule. -/
theorem c6_popup_reason_lacks_values :
    validateExtraction { min_word_count := 0, min_code_blocks := 0 }
        { success := true,
          content :=
            { word_count := 100,
              main_content := "Please login with your password to continue".toList } }
      = .error msgLoginPopup
    ∧ strContainsSub msgLoginPopup (natToStr 200) = false
    ∧ strContainsSub msgLoginPopup (natToStr 100) = false
    ∧ msgLoginPopup.all (fun c => !c.isDigit) = true := by
  refine ⟨rfl, by decide, by decide, by decide⟩

/-- C6 amended: validate applies the rules in source order - success flag,
word count, code blocks, login popup - and the first failing rule
determines the rejection reason; the word-count and code-block reasons
carry the observed and the required value, while the success-flag and
login-popup reasons carry no values. A record with 499 words under the
default threshold 500 is rejected with the word-count reason, with 500 it
is accepted. -/
theorem c6_validate_first_fail :
    (∀ (v : ValidationConfig) (r : Record),
      (r.success = false → validateExtraction v r = .error msgUnsuccessful)
      ∧ (r.success = true → r.content.word_count < v.min_word_count →
          validateExtraction v r
            = .error (msgWordCount r.content.word_count v.min_word_count))
      ∧ (r.success = true → ¬ r.content.word_count < v.min_word_count →
          r.content.code_blocks < v.min_code_blocks →
          validateExtraction v r
            = .error (msgCodeBlocks r.content.code_blocks v.min_code_blocks))
      ∧ (r.success = true → ¬ r.content.word_count < v.min_word_count →
          ¬ r.content.code_blocks < v.min_code_blocks →
          (v.reject_login_popup && isLoginPopupContent r.content) = true →
          validateExtraction v r = .error msgLoginPopup)
      ∧ (r.success = true → ¬ r.content.word_count < v.min_word_count →
          ¬ r.content.code_blocks < v.min_code_blocks →
          (v.reject_login_popup && isLoginPopupContent r.content) = false →
          validateExtraction v r = .ok ()))
    ∧ validateExtraction {} rec499 = .error (msgWordCount 499 500)
    ∧ validateExtraction {} rec500 = .ok () := by
  refine ⟨fun v r => ⟨?_, ?_, ?_, ?_, ?_⟩, rfl, rfl⟩
  · intro h1
    simp [validateExtraction, h1]
  · intro h1 h2
    simp [validateExtraction, h1, h2]
  · intro h1 h2 h3
    simp [validateExtraction, h1, h2, h3]
  · intro h1 h2 h3 h4
    simp [validateExtraction, h1, h2, h3, h4]
  · intro h1 h2 h3 h4
    simp [validateExtraction, h1, h2, h3, h4]

/-- C6 witness: the word-count conjunct applied at the boundary record
with 499 words under the default configuration. -/
theorem c6_validate_first_fail_witness :
    validateExtraction {} rec499
      = .error (msgWordCount rec499.content.word_count ({} : ValidationConfig).min_word_count) :=
  (c6_validate_first_fail.1 {} rec499).2.1 rfl (by decide)

/-- Each loop iteration settles exactly one item: the three per-item
counters together grow by exactly one. -/
theorem counterSum_processOneUrl (cfg : BatchConfig) (env : Str → UrlOutcome)
    (s : BatchState) (url : Str) :
    counterSum (processOneUrl cfg env s url).1.stats = counterSum s.stats + 1 := by
  unfold processOneUrl
  split
  · simp only [counterSum]
    omega
  · split <;> simp [counterSum, updateContentStats] <;> omega

/-- No loop iteration touches the total counter. -/
theorem total_processOneUrl (cfg : BatchConfig) (env : Str → UrlOutcome)
    (s : BatchState) (url : Str) :
    (processOneUrl cfg env s url).1.stats.total = s.stats.total := by
  unfold processOneUrl
  split
  · rfl
  · split <;> rfl

/-- Counter accounting of the whole loop: the counters grow by at most the
number of items, by exactly that number when the loop does not break, and
the total counter is untouched. -/
theorem processUrlsAux_counters (cfg : BatchConfig) (env : Str → UrlOutcome) :
    ∀ (urls : List Str) (s : BatchState),
      counterSum (processUrlsAux cfg env s urls).1.stats
        ≤ counterSum s.stats + urls.length
      ∧ ((processUrlsAux cfg env s urls).2 = false →
          counterSum (processUrlsAux cfg env s urls).1.stats
            = counterSum s.stats + urls.length)
      ∧ (processUrlsAux cfg env s urls).1.stats.total = s.stats.total := by
  intro urls
  induction urls with
  | nil =>
    intro s
    exact ⟨by simp [processUrlsAux], fun _ => by simp [processUrlsAux], rfl⟩
  | cons url rest ih =>
    intro s
    rcases hstep : processOneUrl cfg env s url with ⟨s1, brk⟩
    have hsum : counterSum s1.stats = counterSum s.stats + 1 := by
      have h := counterSum_processOneUrl cfg env s url
      rw [hstep] at h
      exact h
    have htot : s1.stats.total = s.stats.total := by
      have h := total_processOneUrl cfg env s url
      rw [hstep] at h
      exact h
    cases brk
    · have hrec := ih s1
      simp only [processUrlsAux, hstep, List.length_cons]
      refine ⟨by have h1 := hrec.1; omega, fun hb => ?_, by rw [hrec.2.2, htot]⟩
      have h2 := hrec.2.1 hb
      omega
    · simp only [processUrlsAux, hstep, List.length_cons]
      refine ⟨by omega, fun hb => by simp at hb, htot⟩

/-- Every state the loop passes through keeps the counter sum within the
starting sum plus the number of items. -/
theorem processStates_bound (cfg : BatchConfig) (env : Str → UrlOutcome) :
    ∀ (urls : List Str) (s t : BatchState),
      t ∈ processStates cfg env s urls →
      counterSum t.stats ≤ counterSum s.stats + urls.length := by
  intro urls
  induction urls with
  | nil =>
    intro s t ht
    simp [processStates] at ht
    subst ht
    simp
  | cons url rest ih =>
    intro s t ht
    rcases hstep : processOneUrl cfg env s url with ⟨s1, brk⟩
    have hsum : counterSum s1.stats = counterSum s.stats + 1 := by
      have h := counterSum_processOneUrl cfg env s url
      rw [hstep] at h
      exact h
    cases brk
    · simp only [processStates, hstep] at ht
      rcases List.mem_cons.mp ht with rfl | hmem
      · simp
      · have h := ih s1 t hmem
        simp only [List.length_cons]
        omega
    · simp only [processStates, hstep] at ht
      simp at ht
      rcases ht with rfl | rfl
      · simp
      · simp only [List.length_cons]
        omega

/-- C9: throughout every run the per-item counters sum to at most the
input length (every state the loop passes through satisfies the bound),
the total counter equals the input length, and when the run completes
without the stop-on-error break the counters sum to exactly the total. -/
theorem c9_counter_invariant :
    ∀ (cfg : BatchConfig) (env : Str → UrlOutcome) (processed0 urls : List Str),
      (∀ t ∈ processStates cfg env (initialBatchState processed0 urls.length) urls,
        counterSum t.stats ≤ urls.length)
      ∧ counterSum (processUrlsRun cfg env processed0 urls).1.stats ≤ urls.length
      ∧ (processUrlsRun cfg env processed0 urls).1.stats.total = urls.length
      ∧ ((processUrlsRun cfg env processed0 urls).2 = false →
          counterSum (processUrlsRun cfg env processed0 urls).1.stats = urls.length) := by
  intro cfg env processed0 urls
  have h0 : counterSum (initialBatchState processed0 urls.length).stats = 0 := rfl
  have haux := processUrlsAux_counters cfg env urls
    (initialBatchState processed0 urls.length)
  simp only [processUrlsRun]
  refine ⟨fun t ht => ?_, ?_, haux.2.2, fun hb => ?_⟩
  · have h := processStates_bound cfg env urls
      (initialBatchState processed0 urls.length) t ht
    omega
  · have h1 := haux.1
    omega
  · have h2 := haux.2.1 hb
    omega

/-- C9 witness: a two-item run with both items found on disk completes
without a break and its counters sum to the total of 2. -/
theorem c9_counter_invariant_witness :
    counterSum (processUrlsRun {} (fun _ => .onDisk) []
        [ "https://www.mql5.com/en/articles/2".toList,
          "https://www.mql5.com/en/articles/1".toList]).1.stats
      = [ "https://www.mql5.com/en/articles/2".toList,
          "https://www.mql5.com/en/articles/1".toList].length :=
  (c9_counter_invariant {} (fun _ => .onDisk) []
    [ "https://www.mql5.com/en/articles/2".toList,
      "https://www.mql5.com/en/articles/1".toList]).2.2.2 (by decide)

/-- C10 counterexample: the URL https://evil.example/mql5.com/articles/7
does not have mql5.com as its host, yet discovery post-processing keeps
it, because the source only tests for the substring mql5.com anywhere in
the URL; so the output is not the set of URLs passing the host-based
validation of the claim. -/
theorem c10_host_gloss_false :
    discoveryProcessUrls [ "https://evil.example/mql5.com/articles/7".toList]
      = [ "https://evil.example/mql5.com/articles/7".toList]
    ∧ claimValidArticleUrl ( "https://evil.example/mql5.com/articles/7".toList) = false := by
  refine ⟨by decide, by decide⟩

/-- C10 amended: over any duplicate-free list with the members of the raw
input (the list(set(...)) step), discovery post-processing is duplicate
free, contains exactly the input URLs accepted by
_is_valid_article_url as the source defines it, and is sorted by numeric article id in
non-increasing order. -/
theorem c10_discovery_sorted_valid :
    ∀ (urls d : List Str), d.Nodup → (∀ x, x ∈ d ↔ x ∈ urls) →
      (discoveryProcessUrlsOn d).Nodup
      ∧ (∀ x, x ∈ discoveryProcessUrlsOn d ↔ x ∈ urls ∧ isValidArticleUrl x = true)
      ∧ (discoveryProcessUrlsOn d).Sorted fun a b => urlSortKey b ≤ urlSortKey a := by
  intro urls d hnd hmem
  have hperm : (discoveryProcessUrlsOn d).Perm (d.filter isValidArticleUrl) :=
    List.perm_insertionSort _ _
  refine ⟨?_, ?_, ?_⟩
  · exact hperm.nodup_iff.mpr (hnd.filter _)
  · intro x
    rw [hperm.mem_iff, List.mem_filter, hmem x]
  · haveI ht : IsTotal Str (fun a b => urlSortKey b ≤ urlSortKey a) :=
      ⟨fun a b => le_total (urlSortKey b) (urlSortKey a)⟩
    haveI htr : IsTrans Str (fun a b => urlSortKey b ≤ urlSortKey a) :=
      ⟨fun a b c h1 h2 => le_trans h2 h1⟩
    exact List.sorted_insertionSort _ _

/-- C10 witness: the amended statement applied to a singleton valid URL. -/
theorem c10_discovery_sorted_valid_witness :
    (discoveryProcessUrlsOn [ "https://www.mql5.com/en/articles/19625".toList]).Nodup :=
  (c10_discovery_sorted_valid [ "https://www.mql5.com/en/articles/19625".toList]
    [ "https://www.mql5.com/en/articles/19625".toList]
    (by simp) (fun x => Iff.rfl)).1
